import Mathlib

/-!
Verification of the event-management API handlers in `events/views.py`
(repository Novizi-BackEnd), via a shallow embedding of the data model and
the request handlers as pure Lean functions over an explicit database state.

Times are modelled as integers (a larger integer is a later instant).
Users are identified by natural numbers; an unauthenticated requester is
`none : Option Nat`.
-/

namespace Novizi

/-- An `Event` row: the fields the handlers read.  `hostedBy` is the owning
user's id; `eventDate` is the event's timestamp. -/
structure Event where
  slug : String
  title : String
  hostedBy : Nat
  eventDate : Int
  deriving Repr, DecidableEq

/-- Modelled from the spec: the lifecycle status of a `Session`. `models.py`
is not in the excerpt; the spec states `status` is enumerated over exactly
`Draft | Accepted | Denied`, set externally to these handlers. -/
inductive Status where
  | draft
  | accepted
  | denied
  deriving Repr, DecidableEq

/-- The string stored for a status, as the views compare it
(`status="Draft"` and so on). -/
def Status.render : Status → String
  | .draft => "Draft"
  | .accepted => "Accepted"
  | .denied => "Denied"

/-- A `Session` row.  `events` holds the parent event's slug (the views
always address the parent through `events__slug`); `proposedBy` is the
proposing user's id. -/
structure Session where
  slug : String
  title : String
  status : Status
  proposedBy : Nat
  events : String
  deriving Repr, DecidableEq

/-- An `Attendee` row: one user's signup to one event, the event again
addressed by its slug. -/
structure Attendee where
  user : Nat
  events : String
  deriving Repr, DecidableEq

/-- The relational store as the handlers see it. -/
structure DB where
  events : List Event
  attendees : List Attendee
  sessions : List Session
  deriving Repr, DecidableEq

/-- Relation `event.attendees`: the Attendee rows related to an event. -/
def eventAttendees (db : DB) (e : Event) : List Attendee :=
  db.attendees.filter (fun a => a.events = e.slug)

/-- Lookup `get_object_or_404(Event, slug=slug)`: resolves the first matching
row or signals absence. -/
def findEvent (db : DB) (slug : String) : Option Event :=
  db.events.find? (fun e => e.slug = slug)

/-- Outcome of the signup action `sign_up_to_event`. -/
inductive SignupResult where
  | notFound
  | ownerError
  | alreadyAttended
  | created
  deriving Repr, DecidableEq

/-- The HTTP status each signup outcome is surfaced with.  `NotFound`
renders as 404 and the success path returns an explicit 201, but the owner
and duplicate rejections raise bare `exceptions.APIException`, whose
class-level `status_code` is 500 — the `code=status.HTTP_400_BAD_REQUEST`
kwarg of `APIException.__init__(detail, code)` sets the machine-readable
error-code slug, not the HTTP response status. -/
def SignupResult.statusCode : SignupResult → Nat
  | .notFound => 404
  | .ownerError => 500
  | .alreadyAttended => 500
  | .created => 201

/-- Handler `sign_up_to_event(request, slug)`: resolve the event by slug
(404 when absent); reject the host; reject a requester with an existing
Attendee row, probed as `event.attendees.filter(user=request.user).first()`
(both rejections raised as bare `APIException`, hence surfaced with the
status of `SignupResult.statusCode`); otherwise save
`Attendee(user=request.user, events=event)` and return 201. -/
def sign_up_to_event (db : DB) (user : Nat) (slug : String) :
    SignupResult × DB :=
  match findEvent db slug with
  | none => (.notFound, db)
  | some event =>
    if event.hostedBy = user then
      (.ownerError, db)
    else
      match (eventAttendees db event).find? (fun a => a.user = user) with
      | some _ => (.alreadyAttended, db)
      | none =>
        (.created, { db with attendees := db.attendees ++ [⟨user, event.slug⟩] })

/-! ## Event list (`EventListCreateAPIView`) -/

/-- The class attribute
`queryset = Event.objects...filter(event_date__gt=timezone.now())`:
`timezone.now()` is evaluated once, when the class body runs at module
import, so the cutoff `classTime` is the import instant, not the request
instant. -/
def event_list_queryset (db : DB) (classTime : Int) : List Event :=
  db.events.filter (fun e => classTime < e.eventDate)

/-- The list response: the class-attribute queryset, ordered by the default
`ordering = ("event_date",)` (ascending `event_date`). -/
def event_list (db : DB) (classTime : Int) : List Event :=
  (event_list_queryset db classTime).insertionSort
    (fun a b => a.eventDate ≤ b.eventDate)

/-! ## Event retrieve (`EventRetrieveUpdateDestroyAPIView.retrieve`) -/

/-- How a `.get(slug=...)` lookup can fail. -/
inductive LookupError where
  | doesNotExist
  | multipleReturned
  deriving Repr, DecidableEq

/-- Lookup `self.get_queryset().get(slug=...)`: succeeds only when exactly one row
matches; zero rows raise `DoesNotExist`, several raise
`MultipleObjectsReturned`. -/
def getEventBySlug (events : List Event) (slug : String) :
    Except LookupError Event :=
  match events.filter (fun e => e.slug = slug) with
  | [] => .error .doesNotExist
  | [e] => .ok e
  | _ => .error .multipleReturned

/-- The extra fields the retrieve handler adds to the serialized event. -/
structure RetrieveData where
  event : Event
  has_sign_up : Bool
  event_is_open : Bool
  is_authenticated : Bool
  deriving Repr, DecidableEq

/-- Outcome of the retrieve handler. -/
inductive RetrieveResult where
  | notFound
  | ok (data : RetrieveData)
  deriving Repr, DecidableEq

/-- The `retrieve` override: any exception from the slug lookup becomes
`NotFound`; on success the response data carries `has_sign_up`
(authenticated and `event.attendees.filter(user=request.user)` nonempty),
`event_is_open` (`event.event_date > timezone.now()`, sampled per request)
and `is_authenticated`. -/
def event_retrieve (db : DB) (requester : Option Nat) (slug : String)
    (now : Int) : RetrieveResult :=
  match getEventBySlug db.events slug with
  | .error _ => .notFound
  | .ok event =>
    .ok
      { event := event
        has_sign_up :=
          match requester with
          | some u =>
            !((eventAttendees db event).filter (fun a => a.user = u)).isEmpty
          | none => false
        event_is_open := decide (event.eventDate > now)
        is_authenticated := requester.isSome }

/-! ## Session listings and scoped retrieval -/

/-- Relation `event.sessions`: all Session rows of the event named by `eventSlug`. -/
def eventSessions (db : DB) (eventSlug : String) : List Session :=
  db.sessions.filter (fun s => s.events = eventSlug)

/-- Queryset `Session.objects.filter(status=statusStr).filter(events__slug=eventSlug)`:
the queryset shared (up to the status literal) by the Draft, Accepted and
Denied surfaces. -/
def scoped_sessions (statusStr : String) (db : DB) (eventSlug : String) :
    List Session :=
  (db.sessions.filter (fun s => s.status.render = statusStr)).filter
    (fun s => s.events = eventSlug)

/-- Queryset of `ProposerListCreateAPIView` and
`ProposerRetrieveUpdateDestroyAPIView` (`get_queryset`). -/
def draft_sessions (db : DB) (eventSlug : String) : List Session :=
  scoped_sessions "Draft" db eventSlug

/-- Queryset of `SessionListAPIView` and `SessionRetrieveAPIView`
(`get_queryset`). -/
def accepted_sessions (db : DB) (eventSlug : String) : List Session :=
  scoped_sessions "Accepted" db eventSlug

/-- Queryset of `DeniedSessionListAPIView` and
`DeniedSessionRetrieveAPIView` (`get_queryset`). -/
def denied_sessions (db : DB) (eventSlug : String) : List Session :=
  scoped_sessions "Denied" db eventSlug

/-- The generic retrieve on a status-scoped surface:
`get_object_or_404(get_queryset(), slug=slug)`; `none` is surfaced as 404. -/
def session_retrieve_scoped (statusStr : String) (db : DB)
    (eventSlug slug : String) : Option Session :=
  (scoped_sessions statusStr db eventSlug).find? (fun s => s.slug = slug)

/-! ## Draft session creation (`ProposerListCreateAPIView.perform_create`) -/

/-- Outcome of a create action. -/
inductive CreateResult where
  | notFound
  | created
  deriving Repr, DecidableEq

/-- Handler `perform_create`: resolve the parent event by the path's `event_slug`
(404 when absent), then
`serializer.save(proposed_by=request.user, events=event)` — the saved
session's `proposed_by` and `events` fields are forced to the requester and
the resolved event, whatever the submitted `input` carried. -/
def session_create (db : DB) (user : Nat) (eventSlug : String)
    (input : Session) : CreateResult × DB :=
  match findEvent db eventSlug with
  | none => (.notFound, db)
  | some event =>
    (.created,
      { db with
          sessions :=
            db.sessions ++ [{ input with proposedBy := user, events := event.slug }] })

/-! ## Permissions and event mutation -/

/-- HTTP methods the handlers distinguish. -/
inductive Method where
  | get
  | head
  | options
  | post
  | put
  | patch
  | delete
  deriving Repr, DecidableEq

/-- The framework's safe (read-only) methods: GET, HEAD, OPTIONS. -/
def Method.isSafe : Method → Bool
  | .get => true
  | .head => true
  | .options => true
  | _ => false

/-- Check `IsAuthenticatedOrReadOnly.has_permission`: safe methods always pass;
unsafe methods require an authenticated requester. -/
def is_authenticated_or_read_only (method : Method)
    (requester : Option Nat) : Bool :=
  method.isSafe || requester.isSome

/-- Modelled from the spec: `events/permissions.py` (`IsOwnerOrReadOnly`) is
not in the excerpt; the spec states "Event-owner-or-read-only: allow unsafe
methods only if `entity.hosted_by == requester`", safe methods allowed for
anyone. -/
def is_owner_or_read_only (method : Method) (requester : Option Nat)
    (e : Event) : Bool :=
  method.isSafe ||
    match requester with
    | some u => e.hostedBy = u
    | none => false

/-- Outcome of a mutating request on an event. -/
inductive MutateResult where
  | unauthenticated
  | notFound
  | forbidden
  | ok
  deriving Repr, DecidableEq

/-- Replace the first event whose slug matches by its update. -/
def updateEventBySlug (events : List Event) (slug : String)
    (f : Event → Event) : List Event :=
  match events with
  | [] => []
  | e :: rest =>
    if e.slug = slug then f e :: rest
    else e :: updateEventBySlug rest slug f

/-- Remove the first event whose slug matches. -/
def deleteEventBySlug (events : List Event) (slug : String) : List Event :=
  match events with
  | [] => []
  | e :: rest =>
    if e.slug = slug then rest else e :: deleteEventBySlug rest slug

/-- A PATCH/PUT/DELETE request on `EventRetrieveUpdateDestroyAPIView`:
the view checks `IsAuthenticatedOrReadOnly`, resolves the object by slug
(404 when absent), checks `IsOwnerOrReadOnly` against it (403 when it
denies), and only then applies the mutation `f` (ignored for DELETE). -/
def event_mutate (db : DB) (requester : Option Nat) (slug : String)
    (method : Method) (f : Event → Event) : MutateResult × DB :=
  if !(is_authenticated_or_read_only method requester) then
    (.unauthenticated, db)
  else
    match findEvent db slug with
    | none => (.notFound, db)
    | some e =>
      if !(is_owner_or_read_only method requester e) then
        (.forbidden, db)
      else if method = .delete then
        (.ok, { db with events := deleteEventBySlug db.events slug })
      else
        (.ok, { db with events := updateEventBySlug db.events slug f })

/-! ## Concrete stores used by the witnesses -/

/-- A store with one event hosted by user 0 and no attendees. -/
def dbSignup : DB :=
  { events := [⟨"ev", "Ev", 0, 100⟩], attendees := [], sessions := [] }

/-- A store whose only event is hosted by user 7, who also already has an
Attendee row for it. -/
def dbOwnerDup : DB :=
  { events := [⟨"ev", "Ev", 7, 100⟩], attendees := [⟨7, "ev"⟩], sessions := [] }

/-- A store with one event whose date (5) lies strictly between the
class-body evaluation instant (0) and a later request instant (10). -/
def dbStale : DB :=
  { events := [⟨"past", "Past", 0, 5⟩], attendees := [], sessions := [] }

/-- A store with one future-dated event and one attendee. -/
def dbRetrieve : DB :=
  { events := [⟨"ev", "Ev", 0, 100⟩], attendees := [⟨5, "ev"⟩], sessions := [] }

/-- A store holding two distinct events that share the slug "dup". -/
def dbDupSlug : DB :=
  { events := [⟨"dup", "A", 0, 100⟩, ⟨"dup", "B", 1, 200⟩],
    attendees := [], sessions := [] }

/-- A store whose event "ev" has one Accepted session "s1". -/
def dbScopedStatus : DB :=
  { events := [⟨"ev", "Ev", 0, 100⟩], attendees := [],
    sessions := [⟨"s1", "T", .accepted, 5, "ev"⟩] }

/-! ## Theorems -/

/-- C1 (refuted at concrete inputs): the signup action behaves as claimed on
the 404, creation and repeat paths — a missing slug answers 404, a fresh
signup returns 201 appending exactly one Attendee row, and the repeat is
rejected — but the owner and duplicate rejections are surfaced with HTTP
500, not the claimed 400: the handler raises bare `APIException`, whose
`status_code` is 500; its `code=` kwarg only names the error-code slug. -/
theorem sign_up_to_event_error_status :
    (sign_up_to_event dbSignup 5 "missing").1.statusCode = 404 ∧
    sign_up_to_event dbSignup 5 "ev" =
      (.created, { dbSignup with attendees := [⟨5, "ev"⟩] }) ∧
    (sign_up_to_event dbSignup 5 "ev").1.statusCode = 201 ∧
    (sign_up_to_event { dbSignup with attendees := [⟨5, "ev"⟩] } 5 "ev").1
      = .alreadyAttended ∧
    (sign_up_to_event { dbSignup with attendees := [⟨5, "ev"⟩] } 5
        "ev").1.statusCode = 500 ∧
    (sign_up_to_event dbOwnerDup 7 "ev").1 = .ownerError ∧
    (sign_up_to_event dbOwnerDup 7 "ev").1.statusCode = 500 ∧
    ¬ (sign_up_to_event dbOwnerDup 7 "ev").1.statusCode = 400 := by
  decide

/-- C8: when the requester is the resolved event's host and an Attendee row
for the pair also exists, the signup action reports the owner error — the
duplicate check is never reached. -/
theorem sign_up_owner_check_first (db : DB) (u : Nat) (slug : String)
    (e : Event) (hfind : findEvent db slug = some e) (hown : e.hostedBy = u)
    (_hdup : ∃ a ∈ db.attendees, a.events = e.slug ∧ a.user = u) :
    (sign_up_to_event db u slug).1 = .ownerError ∧
    (sign_up_to_event db u slug).1 ≠ .alreadyAttended := by
  have h : (sign_up_to_event db u slug).1 = .ownerError := by
    simp [sign_up_to_event, hfind, hown]
  exact ⟨h, by simp [h]⟩

/-- Witness for C8: host 7, who also attends "ev", gets the owner error. -/
theorem sign_up_owner_check_first_witness :
    (sign_up_to_event dbOwnerDup 7 "ev").1 = .ownerError ∧
    (sign_up_to_event dbOwnerDup 7 "ev").1 ≠ .alreadyAttended :=
  sign_up_owner_check_first dbOwnerDup 7 "ev" ⟨"ev", "Ev", 7, 100⟩
    (by decide) (by decide)
    ⟨⟨7, "ev"⟩, by simp [dbOwnerDup], by decide, by decide⟩

/-- C2 (refuted at a concrete input): the list cutoff is `timezone.now()`
evaluated once in the class body (here instant 0), so by a request at
instant 10 the event dated 5 — no longer strictly in the future — is still
returned by `event_list`. -/
theorem event_list_stale_cutoff :
    (⟨"past", "Past", 0, 5⟩ : Event) ∈ event_list dbStale 0 ∧
    ¬ ((Event.mk "past" "Past" 0 5).eventDate > 10) := by
  decide

/-- C3: on a successful retrieve of the event resolved by the slug, the
response's `event_is_open` is true exactly when that event's date is
strictly after the per-request `now`. -/
theorem event_retrieve_event_is_open (db : DB) (requester : Option Nat)
    (slug : String) (now : Int) (e : Event)
    (h : getEventBySlug db.events slug = .ok e) :
    ∃ d, event_retrieve db requester slug now = .ok d ∧ d.event = e ∧
      (d.event_is_open = true ↔ e.eventDate > now) := by
  unfold event_retrieve
  rw [h]
  exact ⟨_, rfl, rfl, by simp⟩

/-- Witness for C3: retrieving "ev" (date 100) at instant 50 yields
`event_is_open = true`. -/
theorem event_retrieve_event_is_open_witness :
    ∃ d, event_retrieve dbRetrieve (some 5) "ev" 50 = .ok d ∧
      d.event = ⟨"ev", "Ev", 0, 100⟩ ∧
      (d.event_is_open = true ↔ (100 : Int) > 50) := by
  have h := event_retrieve_event_is_open dbRetrieve (some 5) "ev" 50
    ⟨"ev", "Ev", 0, 100⟩ (by rfl)
  exact h

/-- C4: on a successful retrieve, `has_sign_up` is true exactly when the
requester is authenticated and an Attendee row links them to the resolved
event; an unauthenticated requester always gets `has_sign_up = false`. -/
theorem event_retrieve_has_sign_up (db : DB) (requester : Option Nat)
    (slug : String) (now : Int) (d : RetrieveData)
    (h : event_retrieve db requester slug now = .ok d) :
    (d.has_sign_up = true ↔
      ∃ u, requester = some u ∧
        ∃ a ∈ db.attendees, a.events = d.event.slug ∧ a.user = u) ∧
    (requester = none → d.has_sign_up = false) := by
  unfold event_retrieve at h
  cases hg : getEventBySlug db.events slug with
  | error err => rw [hg] at h; cases h
  | ok ev =>
    rw [hg] at h
    cases h
    cases requester with
    | none => simp
    | some u =>
      refine ⟨?_, by intro hnone; cases hnone⟩
      simp [eventAttendees, List.isEmpty_eq_false, ← List.filter_filter,
        List.filter_eq_nil_iff, List.mem_filter]

/-- Witness for C4: in `dbRetrieve`, attendee 5 sees `has_sign_up = true`
matching their Attendee row. -/
theorem event_retrieve_has_sign_up_witness :
    ((event_retrieve dbRetrieve (some 5) "ev" 50 =
        .ok ⟨⟨"ev", "Ev", 0, 100⟩, true, true, true⟩) ∧
      (((⟨⟨"ev", "Ev", 0, 100⟩, true, true, true⟩ : RetrieveData).has_sign_up
            = true) ↔
        ∃ u, (some 5 : Option Nat) = some u ∧
          ∃ a ∈ dbRetrieve.attendees,
            a.events =
              (⟨⟨"ev", "Ev", 0, 100⟩, true, true, true⟩ :
                RetrieveData).event.slug ∧
            a.user = u)) := by
  have hok : event_retrieve dbRetrieve (some 5) "ev" 50 =
      .ok ⟨⟨"ev", "Ev", 0, 100⟩, true, true, true⟩ := by decide
  exact ⟨hok, (event_retrieve_has_sign_up dbRetrieve (some 5) "ev" 50 _ hok).1⟩

/-- C9: every failure of the slug lookup — the absent-slug case and the
several-rows case alike — is surfaced by the retrieve handler as
`NotFound`. -/
theorem event_retrieve_lookup_errors_to_not_found (db : DB)
    (requester : Option Nat) (slug : String) (now : Int) (err : LookupError)
    (h : getEventBySlug db.events slug = .error err) :
    event_retrieve db requester slug now = .notFound := by
  simp [event_retrieve, h]

/-- Witness for C9: with two rows for slug "dup" the lookup fails with
`multipleReturned`, and retrieve still answers `notFound`. -/
theorem event_retrieve_lookup_errors_to_not_found_witness :
    getEventBySlug dbDupSlug.events "dup" = .error .multipleReturned ∧
    event_retrieve dbDupSlug (some 5) "dup" 50 = .notFound :=
  ⟨by rfl,
    event_retrieve_lookup_errors_to_not_found dbDupSlug (some 5) "dup" 50
      .multipleReturned (by rfl)⟩

/-- A session listed by a status-scoped queryset carries that status
string. -/
lemma status_of_mem_scoped {st : String} {db : DB} {evs : String}
    {s : Session} (h : s ∈ scoped_sessions st db evs) :
    s.status.render = st := by
  have h1 := (List.mem_filter.mp h).1
  simpa using (List.mem_filter.mp h1).2

/-- Status-scoped querysets for distinct status strings never share a
session. -/
lemma scoped_sessions_disjoint (db : DB) (evs : String) {st₁ st₂ : String}
    (hne : st₁ ≠ st₂) :
    scoped_sessions st₁ db evs ∩ scoped_sessions st₂ db evs = [] := by
  rw [List.inter_eq_nil_iff_disjoint]
  intro s hs hs₂
  exact hne ((status_of_mem_scoped hs).symm.trans (status_of_mem_scoped hs₂))

/-- C5: a session of an event is listed by its Draft, Accepted or Denied
surface — the union of the three listings is the set of all the event's
sessions — and no session appears on two of the three surfaces. -/
theorem session_listings_partition (db : DB) (eventSlug : String)
    (s : Session) :
    (s ∈ eventSessions db eventSlug ↔
      s ∈ draft_sessions db eventSlug ∨ s ∈ accepted_sessions db eventSlug ∨
        s ∈ denied_sessions db eventSlug) ∧
    draft_sessions db eventSlug ∩ accepted_sessions db eventSlug = [] ∧
    draft_sessions db eventSlug ∩ denied_sessions db eventSlug = [] ∧
    accepted_sessions db eventSlug ∩ denied_sessions db eventSlug = [] := by
  refine ⟨?_, scoped_sessions_disjoint db eventSlug (by decide),
    scoped_sessions_disjoint db eventSlug (by decide),
    scoped_sessions_disjoint db eventSlug (by decide)⟩
  obtain ⟨sl, t, st, pb, ev⟩ := s
  cases st <;>
    simp [eventSessions, draft_sessions, accepted_sessions, denied_sessions,
      scoped_sessions, List.mem_filter, Status.render]

/-- C6: on a PATCH or DELETE of an existing event, an authenticated
requester who is not the host is answered 403 with the store unchanged,
while the host's request passes the permission checks and succeeds. -/
theorem event_mutate_owner_only (db : DB) (requester : Nat) (slug : String)
    (method : Method) (f : Event → Event) (e : Event)
    (hfind : findEvent db slug = some e)
    (hmeth : method = .patch ∨ method = .delete) :
    (e.hostedBy ≠ requester →
      event_mutate db (some requester) slug method f = (.forbidden, db)) ∧
    (e.hostedBy = requester →
      (event_mutate db (some requester) slug method f).1 = .ok) := by
  constructor
  · intro hne
    rcases hmeth with h | h <;> subst h <;>
      simp [event_mutate, is_authenticated_or_read_only, hfind,
        is_owner_or_read_only, Method.isSafe, hne]
  · intro heq
    rcases hmeth with h | h <;> subst h <;>
      simp [event_mutate, is_authenticated_or_read_only, hfind,
        is_owner_or_read_only, Method.isSafe, heq]

/-- Witness for C6: on `dbSignup`'s event (hosted by user 0), user 1's
PATCH is forbidden and leaves the store unchanged, while host 0's DELETE
succeeds. -/
theorem event_mutate_owner_only_witness :
    event_mutate dbSignup (some 1) "ev" .patch id = (.forbidden, dbSignup) ∧
    (event_mutate dbSignup (some 0) "ev" .delete id).1 = .ok :=
  ⟨(event_mutate_owner_only dbSignup 1 "ev" .patch id ⟨"ev", "Ev", 0, 100⟩
      (by rfl) (Or.inl rfl)).1 (by decide),
   (event_mutate_owner_only dbSignup 0 "ev" .delete id ⟨"ev", "Ev", 0, 100⟩
      (by rfl) (Or.inr rfl)).2 (by decide)⟩

/-- C7: creating a draft session under a parent-event slug answers 404 with
the store unchanged when no event carries the slug; otherwise the saved
session is the submitted one with `proposed_by` forced to the requester and
`events` forced to the resolved parent event. -/
theorem session_create_spec (db : DB) (u : Nat) (eventSlug : String)
    (input : Session) :
    ((∀ e ∈ db.events, e.slug ≠ eventSlug) →
      session_create db u eventSlug input = (.notFound, db)) ∧
    (∀ event, findEvent db eventSlug = some event →
      session_create db u eventSlug input =
        (.created,
          { db with
              sessions := db.sessions ++
                [{ input with proposedBy := u, events := event.slug }] })) := by
  constructor
  · intro habsent
    have hnone : findEvent db eventSlug = none := by
      simp [findEvent, List.find?_eq_none]
      intro e he
      exact habsent e he
    simp [session_create, hnone]
  · intro event hfind
    simp [session_create, hfind]

/-- Witness for C7: user 5 proposes a session under "ev"; the stored row
has `proposedBy = 5` and `events = "ev"` whatever the input carried. -/
theorem session_create_spec_witness :
    session_create dbSignup 5 "ev" ⟨"s1", "T", .draft, 9, "x"⟩ =
      (.created,
        { dbSignup with sessions := [⟨"s1", "T", .draft, 5, "ev"⟩] }) := by
  have h := (session_create_spec dbSignup 5 "ev"
    ⟨"s1", "T", .draft, 9, "x"⟩).2 ⟨"ev", "Ev", 0, 100⟩ (by rfl)
  simpa [dbSignup] using h

/-- C10: a status-scoped retrieve surface only ever answers with a session
of its own status (under the named event, with the requested slug), and
when every session matching the event and slug carries a different status
the surface answers 404 (`none`). -/
theorem session_retrieve_scoped_spec (st : String) (db : DB)
    (eventSlug slug : String) :
    (∀ s, session_retrieve_scoped st db eventSlug slug = some s →
      s.status.render = st ∧ s.events = eventSlug ∧ s.slug = slug) ∧
    ((∀ s ∈ db.sessions, s.events = eventSlug → s.slug = slug →
        s.status.render ≠ st) →
      session_retrieve_scoped st db eventSlug slug = none) := by
  constructor
  · intro s hs
    have hmem := List.mem_of_find?_eq_some hs
    have hslug := List.find?_some hs
    have h1 := List.mem_filter.mp hmem
    exact ⟨status_of_mem_scoped hmem, by simpa using h1.2, by simpa using hslug⟩
  · intro hall
    simp only [session_retrieve_scoped, scoped_sessions, List.find?_eq_none]
    intro x hx
    have h1 := List.mem_filter.mp hx
    have h2 := List.mem_filter.mp h1.1
    simp only [decide_eq_true_eq]
    intro hslug
    exact hall x h2.1 (by simpa using h1.2) hslug (by simpa using h2.2)

/-- Witness for C10: "s1" exists under "ev" but is Accepted, so the Draft
surface answers `none` (404). -/
theorem session_retrieve_scoped_spec_witness :
    session_retrieve_scoped "Draft" dbScopedStatus "ev" "s1" = none :=
  (session_retrieve_scoped_spec "Draft" dbScopedStatus "ev" "s1").2
    (by decide)

end Novizi
